import Mathlib

/-!
# Verification of the OpenCode proxy gateway

A shallow embedding of the Hono/Bun proxy service found in
`services/proxy/src` (and its earlier iterations kept in the repository):
the API-key gate (`validate-api-key.ts`), the proxy route handlers
(`routes/proxy.ts`, `index.ts`, and the `/api/opencode/:path` variant),
the error handler (`error-handler.ts`) and the credential-management
handlers (`api-keys` routes).

JavaScript string primitives (`split('/')`, `startsWith`, `includes`)
are re-implemented structurally over `List Char` so that every
definition evaluates by `decide`/`rfl`.  HTTP header sets are modelled
as association lists whose names are compared case-insensitively, the
way the Fetch `Headers` object behaves.  Calls to the Identity Store
(better-auth `getSession`) and to the backend compute service are
modelled as explicit effects collected in a trace, so that claims of the
form "no call reaches X" are statements about the trace.
-/

namespace OpencodeProxy

/-- JavaScript `s.split('/')` on the list of characters: every `'/'`
separates two (possibly empty) fields. -/
def splitSlashChars : List Char → List String
  | [] => [""]
  | c :: cs =>
    if c = '/' then
      "" :: splitSlashChars cs
    else
      match splitSlashChars cs with
      | [] => [String.mk [c]]
      | s :: ss => String.mk (c :: s.toList) :: ss

/-- JavaScript `path.split('/')`. -/
def jsSplit (s : String) : List String :=
  splitSlashChars s.toList

/-- JavaScript `Array.prototype.join(sep)` for string arrays. -/
def jsJoin (sep : String) : List String → String
  | [] => ""
  | [s] => s
  | s :: rest => s ++ sep ++ jsJoin sep rest

/-- JavaScript `s.startsWith(pre)`. -/
def jsStartsWith (s pre : String) : Bool :=
  pre.toList.isPrefixOf s.toList

/-- Substring search on character lists: does `needle` occur inside
`hay`? -/
def containsSub (hay needle : List Char) : Bool :=
  match hay with
  | [] => needle.isEmpty
  | _ :: t => needle.isPrefixOf hay || containsSub t needle

/-- JavaScript `s.includes(sub)`. -/
def jsIncludes (s sub : String) : Bool :=
  containsSub s.toList sub.toList

/-- Drop the first `n` characters of a string (used to embed the
anchored regex replace `path.replace(/^\/api\/opencode/, '')`). -/
def stringDrop (s : String) (n : Nat) : String :=
  String.mk (s.toList.drop n)

/-- Lower-case a header name, as the Fetch `Headers` object does. -/
def lowerName (s : String) : String :=
  String.mk (s.toList.map Char.toLower)

/-- A header set: association list of (name, value) pairs. -/
abbrev Hdrs := List (String × String)

/-- `Headers.delete(nm)`: removes every entry whose name matches
case-insensitively. -/
def hDelete (h : Hdrs) (nm : String) : Hdrs :=
  h.filter (fun p => lowerName p.1 != lowerName nm)

/-- `Headers.set(nm, v)`: replaces any matching entries by the single
pair `(nm, v)` (name normalised to lower case, as `Headers` stores
it). -/
def hSet (h : Hdrs) (nm v : String) : Hdrs :=
  hDelete h nm ++ [(lowerName nm, v)]

/-- Setting a header from a JavaScript value that may be `undefined`:
the hono `proxy` helper deletes the header when the record entry is
`undefined` and sets it otherwise. -/
def hSetOpt (h : Hdrs) (nm : String) (v : Option String) : Hdrs :=
  match v with
  | none => hDelete h nm
  | some s => hSet h nm s

/-- Does the header set contain an entry with this (case-insensitive)
name? -/
def hHas (h : Hdrs) (nm : String) : Bool :=
  h.any (fun p => lowerName p.1 == lowerName nm)

/-! ## Effects and outcomes

Calls to external collaborators are recorded as an explicit trace so
that "no call to the Identity Store / backend" is a statement about the
trace of a run. -/

/-- An observable call to an external collaborator. -/
inductive Effect
  | storeLookup (key : String)
  | backendCall (url : String)
deriving DecidableEq, Repr

/-- The caller-visible result of one request, plus the trace of
external calls made while producing it.  `errorBody` is the JSON
envelope of a locally generated (non-proxied) response and is empty for
proxied responses. -/
structure Outcome where
  status : Nat
  errorBody : List (String × String)
  effects : List Effect
deriving DecidableEq, Repr

/-! ## Identity Store (better-auth `auth.api.getSession`)

The store is opaque: a run is parameterised by a function giving, for
each API key, what the store call would produce — a session, "no
match", or a thrown error (unreachable / timeout / driver failure). -/

/-- Result of one `auth.api.getSession` call for an API key. -/
inductive StoreReply
  | found (userId email : String)
  | nomatch
  | failure (msg : String)
deriving DecidableEq, Repr

/-- What the `validateApiKey` middleware does with the request: reject
it with a response (not calling `next()`), or let it through to the
downstream handler with the session attached. -/
inductive GateResult
  | reject (status : Nat) (body : List (String × String))
  | allow (userId : String)
deriving DecidableEq, Repr

/-- `validateApiKey` (services/proxy/src/middleware/validate-api-key.ts).

```
const apiKey = c.req.param('apiKey');
if (!apiKey || !apiKey.startsWith('oc_')) {
  return c.json({ error: 'Invalid API key format' }, 401);
}
try {
  const session = await auth.api.getSession({ headers: ... });
  if (!session) { return c.json({ error: 'Invalid or expired API key' }, 401); }
  c.set('apiKeySession', session); c.set('userId', session.user.id);
  await next();
} catch (error) {
  return c.json({ error: 'Authentication failed' }, 401);
}
```

`apiKey` is `Option String` (`none` = the route parameter is absent);
JavaScript `!apiKey` is also true for the empty string.  The returned
trace lists the `getSession` calls made. -/
def validateApiKey (apiKey : Option String) (store : String → StoreReply) :
    GateResult × List Effect :=
  match apiKey with
  | none => (.reject 401 [("error", "Invalid API key format")], [])
  | some k =>
    if k = "" || !(jsStartsWith k "oc_") then
      (.reject 401 [("error", "Invalid API key format")], [])
    else
      match store k with
      | .found uid _ => (.allow uid, [.storeLookup k])
      | .nomatch => (.reject 401 [("error", "Invalid or expired API key")], [.storeLookup k])
      | .failure _ => (.reject 401 [("error", "Authentication failed")], [.storeLookup k])

/-! ## Forwarding Engine: target URL construction -/

/-- Target URL built by the `/opencode/:apiKey/*` handler
(services/proxy/src/routes/proxy.ts):

```
const path = c.req.path;
const splits = path.split('/');
const openCodePath = splits.length > 3 ? splits.slice(3).join('/') : '';
const opencodeUrl = `http://${config.opencodeHost}:${config.opencodePort}/${openCodePath}`;
return await proxy(opencodeUrl, c.req);
```

`c.req.path` excludes the query string and the handler never reads
`url.search`, so `query` is an (unused) argument recording what the
inbound query string was. -/
def proxyRoutesTarget (host port path _query : String) : String :=
  let splits := jsSplit path
  let openCodePath := if splits.length > 3 then jsJoin "/" (splits.drop 3) else ""
  "http://" ++ host ++ ":" ++ port ++ "/" ++ openCodePath

/-- Target URL built by the `/api/opencode/*` handler
(services/proxy/src/index.ts):

```
const path = url.pathname.replace(/^\/api\/opencode/, '');
const targetUrl = `http://${OPENCODE_HOST}:${OPENCODE_PORT}${path}${url.search}`;
```

The anchored regex strips the literal 13-character prefix
`/api/opencode` when present. -/
def indexTarget (host port pathname search : String) : String :=
  let path := if jsStartsWith pathname "/api/opencode" then stringDrop pathname 13 else pathname
  "http://" ++ host ++ ":" ++ port ++ path ++ search

/-! ## Routing and dispatch for the mounted app (part_005)

`app.route('/opencode', proxyRoutes)` mounts the proxy route at
`/opencode/:apiKey/*`.  In Hono a `:param` segment matches one
non-empty path segment.  The `proxyRoutes.use('/:apiKey/*',
validateApiKey)` line is commented out in routes/proxy.ts, as is the
in-handler session check, so the handler runs with no gate in front of
it. -/

/-- Hono route matching for `/opencode/:apiKey/*`: succeeds iff the
path splits as `/opencode/<apiKey>/...` with a non-empty `apiKey`
segment, returning the captured parameter and the remaining
segments. -/
def matchOpencodeRoute (path : String) : Option (String × List String) :=
  match jsSplit path with
  | "" :: "opencode" :: apiKey :: rest =>
    if apiKey = "" then none else some (apiKey, rest)
  | _ => none

/-- The `/opencode/:apiKey/*` handler as wired in routes/proxy.ts: no
middleware runs (line 17 is commented out), the session check is
commented out, and the request is forwarded to the backend.  `backend`
maps the outbound URL to the backend's status code. -/
def handleProxyRoute (host port : String) (backend : String → Nat)
    (path query : String) : Outcome :=
  let url := proxyRoutesTarget host port path query
  { status := backend url, errorBody := [], effects := [.backendCall url] }

/-- The app-level `notFound` handler of part_005:
`c.json({ error: 'Not found' }, 404)`. -/
def notFoundOutcome : Outcome :=
  { status := 404, errorBody := [("error", "Not found")], effects := [] }

/-- Dispatch of the mounted app (part_005) for paths under the
`/opencode` mount: the proxy route when `/opencode/:apiKey/*` matches,
the 404 handler otherwise.  (The `/health`, `/p8n/auth` and
`/p8n/api-keys` mounts have disjoint literal prefixes and never match
these paths.) -/
def opencodeDispatch (host port : String) (backend : String → Nat)
    (path query : String) : Outcome :=
  match matchOpencodeRoute path with
  | some _ => handleProxyRoute host port backend path query
  | none => notFoundOutcome

/-! ## Forwarding Engine: header handling

Three handler variants appear in the repository; each transforms the
inbound request headers into the outbound (backend-visible) set and the
backend response headers into the caller-visible set. -/

/-- Response-header post-processing of the hono `proxy` helper: the
helper hands the backend headers back unchanged except that, when the
response is content-encoded, it drops `Content-Encoding` and
`Content-Length` (it decompresses the body). -/
def honoProxyResHeaders (h : Hdrs) : Hdrs :=
  if hHas h "content-encoding" then
    (hDelete (hDelete h "content-encoding") "content-length")
  else h

/-- services/proxy/src/index.ts `/api/opencode/*`, request side:
`headers: c.req.raw.headers` — the inbound header set is forwarded
verbatim. -/
def indexOutboundHeaders (inbound : Hdrs) : Hdrs := inbound

/-- services/proxy/src/index.ts `/api/opencode/*`, response side:
`new Response(response.body, { status: response.status, headers:
response.headers })` — the backend status and header set are returned
verbatim. -/
def indexRelay (status : Nat) (respHdrs : Hdrs) : Nat × Hdrs :=
  (status, respHdrs)

/-- The `/api/opencode/:path` handler (part_003), request side:

```
headers: {
  ...c.req.header(),
  'X-Forwarded-For': '127.0.0.1',
  'X-Forwarded-Host': c.req.header('host'),
  Authorization: undefined,
}
```

`c.req.header()` is the inbound set (names lower-cased); the hono
`proxy` helper sets each defined record entry and deletes each entry
given as `undefined`, so `Authorization` is removed and the
`X-Forwarded-*` pair is set by the handler (`host` is the inbound Host
header, absent when the request had none). -/
def part003OutboundHeaders (inbound : Hdrs) (host : Option String) : Hdrs :=
  hDelete (hSetOpt (hSet inbound "X-Forwarded-For" "127.0.0.1") "X-Forwarded-Host" host)
    "Authorization"

/-- The `/api/opencode/:path` handler (part_003), response side: the
hono `proxy` result followed by `res.headers.delete('Set-Cookie')`. -/
def part003Relay (status : Nat) (respHdrs : Hdrs) : Nat × Hdrs :=
  (status, hDelete (honoProxyResHeaders respHdrs) "Set-Cookie")

/-- routes/proxy.ts `/opencode/:apiKey/*`, request side:
`proxy(opencodeUrl, c.req)` — the raw inbound headers are forwarded
(the helper strips nothing relevant here, in particular neither
`Authorization` nor `Cookie`). -/
def proxyRoutesOutboundHeaders (inbound : Hdrs) : Hdrs := inbound

/-- routes/proxy.ts `/opencode/:apiKey/*`, response side: the hono
`proxy` result is returned directly — no `Set-Cookie` deletion. -/
def proxyRoutesRelay (status : Nat) (respHdrs : Hdrs) : Nat × Hdrs :=
  (status, honoProxyResHeaders respHdrs)

/-! ## Error Normalizer -/

/-- `errorHandler` (services/proxy/src/middleware/error-handler.ts):

```
if (error instanceof Error) {
  if (error.message.includes('API key')) {
    return c.json({ error: 'Authentication error', message: error.message }, 401);
  }
  if (error.message.includes('Database')) {
    return c.json({ error: 'Service temporarily unavailable' }, 503);
  }
}
return c.json({ error: 'Internal server error' }, 500);
```

`isError` is `error instanceof Error`; `msg` is `error.message`.  The
function does not take the environment: the code has no
production/development branch. -/
def errorHandler (isError : Bool) (msg : String) : Nat × List (String × String) :=
  if isError && jsIncludes msg "API key" then
    (401, [("error", "Authentication error"), ("message", msg)])
  else if isError && jsIncludes msg "Database" then
    (503, [("error", "Service temporarily unavailable")])
  else
    (500, [("error", "Internal server error")])

/-- The catch branch of the `/api/opencode/*` handler
(services/proxy/src/index.ts):

```
const errorMessage = error instanceof Error ? error.message : 'Unknown error';
return c.json({ error: 'Failed to proxy request', details: errorMessage }, 502);
```

`errMsg` is `some error.message` when the thrown value is an `Error`,
`none` otherwise.  No environment parameter: the envelope is the same
in every mode. -/
def indexProxyCatch (errMsg : Option String) : Nat × List (String × String) :=
  (502, [("error", "Failed to proxy request"), ("details", errMsg.getD "Unknown error")])

/-! ## Credential management (`/p8n/api-keys` routes) -/

/-- An API-key record as returned by `auth.api.listApiKeys`: metadata
plus the raw secret `key` value. -/
structure ApiKeyRecord where
  id : String
  name : String
  createdAt : String
  expiresAt : String
  updatedAt : String
  key : String
deriving DecidableEq, Repr

/-- The `GET /list` handler's sanitisation step:

```
const sanitized = keys.map(k => ({
  id: k.id, name: k.name, createdAt: k.createdAt,
  expiresAt: k.expiresAt, updatedAt: k.updatedAt,
}));
```

Each output element is the JSON object rendered as its ordered field
list. -/
def sanitizeKeys (ks : List ApiKeyRecord) : List (List (String × String)) :=
  ks.map (fun k =>
    [("id", k.id), ("name", k.name), ("createdAt", k.createdAt),
     ("expiresAt", k.expiresAt), ("updatedAt", k.updatedAt)])

/-- `GET /list` response: `return c.json(sanitized)` — status 200 with
the sanitised array. -/
def listKeysHandler (ks : List ApiKeyRecord) :
    Nat × List (List (String × String)) :=
  (200, sanitizeKeys ks)

/-- The parsed body of `POST /create`: both fields optional. -/
structure CreateKeyBody where
  name : Option String
  expiresIn : Option Nat
deriving DecidableEq, Repr

/-- Metadata attached to a created key. -/
structure KeyMetadata where
  createdAt : String
  userEmail : String
deriving DecidableEq, Repr

/-- The argument built for `auth.api.createApiKey`. -/
structure CreateKeyRequest where
  name : String
  expiresIn : Nat
  userId : String
  metadata : KeyMetadata
deriving DecidableEq, Repr

/-- JavaScript `v || d` for a possibly-absent string (`undefined` and
`''` are falsy). -/
def jsOrString (v : Option String) (d : String) : String :=
  match v with
  | none => d
  | some s => if s = "" then d else s

/-- JavaScript `v || d` for a possibly-absent number (`undefined` and
`0` are falsy). -/
def jsOrNat (v : Option Nat) (d : Nat) : Nat :=
  match v with
  | none => d
  | some n => if n = 0 then d else n

/-- The `POST /create` handler's request construction:

```
const apiKey = await auth.api.createApiKey({
  body: {
    name: body.name || 'API Key',
    expiresIn: body.expiresIn || 60 * 60 * 24 * 365,
    userId: session.user.id,
    metadata: { createdAt: new Date().toISOString(), userEmail: session.user.email },
  }, ...
});
```

`nowIso` is the ISO rendering of the current time
(`new Date().toISOString()`). -/
def buildCreateKeyRequest (body : CreateKeyBody) (userId userEmail nowIso : String) :
    CreateKeyRequest :=
  { name := jsOrString body.name "API Key"
    expiresIn := jsOrNat body.expiresIn (60 * 60 * 24 * 365)
    userId := userId
    metadata := { createdAt := nowIso, userEmail := userEmail } }

/-! ## Helper lemmas -/

theorem isPrefixOf_append_self (l t : List Char) : l.isPrefixOf (l ++ t) = true := by
  induction l with
  | nil => simp [List.isPrefixOf]
  | cons a as ih => simp [List.isPrefixOf, ih]

theorem jsStartsWith_append (p s : String) : jsStartsWith (p ++ s) p = true := by
  have h : (p ++ s).toList = p.toList ++ s.toList := rfl
  unfold jsStartsWith
  rw [h]
  exact isPrefixOf_append_self _ _

theorem stringDrop_13_append (s : String) :
    stringDrop ("/api/opencode" ++ s) 13 = s := by
  have h : ("/api/opencode" ++ s).toList = "/api/opencode".toList ++ s.toList := rfl
  have hlen : ("/api/opencode".toList).length = 13 := rfl
  unfold stringDrop
  rw [h, ← hlen, List.drop_left]
  rfl

theorem mem_hDelete_ne (h : Hdrs) (nm : String) (p : String × String)
    (hp : p ∈ hDelete h nm) : lowerName p.1 ≠ lowerName nm := by
  have hf := (List.mem_filter.mp hp).2
  simpa using hf

theorem mem_hDelete_of_mem (h : Hdrs) (nm : String) (p : String × String)
    (hp : p ∈ h) (hne : lowerName p.1 ≠ lowerName nm) : p ∈ hDelete h nm := by
  unfold hDelete
  exact List.mem_filter.mpr ⟨hp, by simpa using hne⟩

theorem mem_hSet_self (h : Hdrs) (nm v : String) : (lowerName nm, v) ∈ hSet h nm v := by
  unfold hSet
  exact List.mem_append.mpr (Or.inr (List.mem_singleton.mpr rfl))

theorem mem_hSet_of_mem (h : Hdrs) (nm v : String) (p : String × String)
    (hp : p ∈ h) (hne : lowerName p.1 ≠ lowerName nm) : p ∈ hSet h nm v := by
  unfold hSet
  exact List.mem_append.mpr (Or.inl (mem_hDelete_of_mem h nm p hp hne))

theorem mem_hSetOpt_of_mem (h : Hdrs) (nm : String) (v : Option String) (p : String × String)
    (hp : p ∈ h) (hne : lowerName p.1 ≠ lowerName nm) : p ∈ hSetOpt h nm v := by
  cases v with
  | none => exact mem_hDelete_of_mem h nm p hp hne
  | some s => exact mem_hSet_of_mem h nm s p hp hne

/-! ## Claims -/

/-- C1: the Authorization Gate is a hard stop — no unauthenticated
request is ever forwarded.  The code violates this: in routes/proxy.ts
the `proxyRoutes.use(..., validateApiKey)` line and the in-handler
session check are both commented out, so a request carrying a key the
Identity Store rejects (the gate, had it run, returns 401) is still
forwarded to the backend compute service: the dispatch trace contains
the backend call and the caller receives the backend's response. -/
theorem unauthenticatedRequestIsForwarded :
    (validateApiKey (some "oc_unknown") (fun _ => StoreReply.nomatch)).1
        = GateResult.reject 401 [("error", "Invalid or expired API key")]
    ∧ opencodeDispatch "opencode" "4096" (fun _ => 200) "/opencode/oc_unknown/ping" ""
        = { status := 200, errorBody := [],
            effects := [Effect.backendCall "http://opencode:4096/ping"] } := by
  decide

/-- C2: a credential without the `oc_` prefix must yield 401 with no
Identity Store and no backend call.  The `validateApiKey` middleware
indeed rejects `sk_123` with 401 and an empty effect trace (no store
lookup), but the middleware is commented out of the route chain, so the
gateway actually forwards the request to the backend instead of
returning 401. -/
theorem badPrefixKeyIsForwarded :
    validateApiKey (some "sk_123") (fun _ => StoreReply.nomatch)
        = (GateResult.reject 401 [("error", "Invalid API key format")], [])
    ∧ opencodeDispatch "opencode" "4096" (fun _ => 200) "/opencode/sk_123/ping" ""
        = { status := 200, errorBody := [],
            effects := [Effect.backendCall "http://opencode:4096/ping"] } := by
  decide

/-- C3 counterexample: the claim says "Identity Store unreachable or
timed out" yields 503; in the code `validateApiKey` catches the thrown
store error and returns 401 (`Authentication failed`), the same status
as the "no match" outcome — 503 is never produced. -/
theorem storeFailureYields401 :
    (validateApiKey (some "oc_abc") (fun _ => StoreReply.failure "Database connection error")).1
        = GateResult.reject 401 [("error", "Authentication failed")]
    ∧ (validateApiKey (some "oc_abc") (fun _ => StoreReply.nomatch)).1
        = GateResult.reject 401 [("error", "Invalid or expired API key")]
    ∧ (((401 : Nat) == 503) = false) := by
  decide

/-- C3 (amended): for a well-formed key, "store reports no match" and
"store call fails" are distinguished only by the response body — 401
`Invalid or expired API key` versus 401 `Authentication failed` — and
both carry status 401, never 503. -/
theorem gateDistinguishesByBodyNotStatus (k : String) (store : String → StoreReply)
    (hk : jsStartsWith k "oc_" = true) :
    (store k = StoreReply.nomatch →
      (validateApiKey (some k) store).1
        = GateResult.reject 401 [("error", "Invalid or expired API key")])
    ∧ (∀ m, store k = StoreReply.failure m →
      (validateApiKey (some k) store).1
        = GateResult.reject 401 [("error", "Authentication failed")]) := by
  have hne : ¬ k = "" := by
    intro h
    subst h
    exact absurd hk (by decide)
  constructor
  · intro hs
    simp [validateApiKey, hk, hne, hs]
  · intro m hs
    simp [validateApiKey, hk, hne, hs]

/-- Witness for the amended C3 theorem at a concrete key and store. -/
theorem gateDistinguishesByBodyNotStatus_witness :
    (validateApiKey (some "oc_abc") (fun _ => StoreReply.nomatch)).1
      = GateResult.reject 401 [("error", "Invalid or expired API key")] :=
  (gateDistinguishesByBodyNotStatus "oc_abc" (fun _ => StoreReply.nomatch) (by decide)).1 rfl

/-- C4 counterexample: a backend `Set-Cookie` header reaches the caller
unchanged through the `/api/opencode/*` handler of index.ts (which
passes `response.headers` verbatim) and through the
`/opencode/:apiKey/*` handler (which returns the hono proxy result
without deleting it); only the part_003 variant deletes it. -/
theorem setCookiePassesThrough :
    indexRelay 200 [("set-cookie", "sid=1; HttpOnly")]
        = (200, [("set-cookie", "sid=1; HttpOnly")])
    ∧ proxyRoutesRelay 200 [("set-cookie", "sid=1; HttpOnly")]
        = (200, [("set-cookie", "sid=1; HttpOnly")]) := by
  decide

/-- C4 (amended): the backend status code is passed through unchanged
by all three handler variants, but only the `/api/opencode/:path`
handler (part_003) removes `Set-Cookie` before the response reaches the
caller; the index.ts handler returns the backend header set verbatim
(so `Set-Cookie` survives there, as the counterexample shows). -/
theorem relayHeaderHygiene (status : Nat) (respHdrs : Hdrs) :
    (∀ p ∈ (part003Relay status respHdrs).2, lowerName p.1 ≠ "set-cookie")
    ∧ (part003Relay status respHdrs).1 = status
    ∧ indexRelay status respHdrs = (status, respHdrs)
    ∧ (proxyRoutesRelay status respHdrs).1 = status := by
  refine ⟨?_, rfl, rfl, rfl⟩
  intro p hp
  have h := mem_hDelete_ne _ "Set-Cookie" p hp
  simpa using h

/-- Witness for the amended C4 theorem at a concrete response. -/
theorem relayHeaderHygiene_witness :
    lowerName ("content-type", "text/html").1 ≠ "set-cookie"
    ∧ indexRelay 200 [("x-a", "b")] = (200, [("x-a", "b")]) :=
  ⟨(relayHeaderHygiene 200 [("content-type", "text/html")]).1
      ("content-type", "text/html") (by decide),
   (relayHeaderHygiene 200 [("x-a", "b")]).2.2.1⟩

/-- C5 counterexample: the inbound `Authorization` and `Cookie` headers
do reach the backend — the index.ts handler and the
`/opencode/:apiKey/*` handler forward the inbound header set verbatim,
and the part_003 handler removes `Authorization` but still forwards the
cookie. -/
theorem inboundCredentialsForwarded :
    indexOutboundHeaders [("authorization", "Bearer secret"), ("cookie", "session=sid")]
        = [("authorization", "Bearer secret"), ("cookie", "session=sid")]
    ∧ proxyRoutesOutboundHeaders [("authorization", "Bearer secret"), ("cookie", "session=sid")]
        = [("authorization", "Bearer secret"), ("cookie", "session=sid")]
    ∧ ("cookie", "session=sid") ∈ part003OutboundHeaders
        [("authorization", "Bearer secret"), ("cookie", "session=sid")] (some "example.com") := by
  decide

/-- C5 (amended): only the `/api/opencode/:path` handler (part_003)
removes the inbound `Authorization` header (and sets `X-Forwarded-For`
itself); it forwards inbound cookies, and the other two handlers
forward the inbound header set — `Authorization` and cookies
included — verbatim. -/
theorem outboundHeaderHygiene (inbound : Hdrs) (host : Option String) :
    (∀ p ∈ part003OutboundHeaders inbound host, lowerName p.1 ≠ "authorization")
    ∧ ("x-forwarded-for", "127.0.0.1") ∈ part003OutboundHeaders inbound host
    ∧ indexOutboundHeaders inbound = inbound
    ∧ proxyRoutesOutboundHeaders inbound = inbound := by
  refine ⟨?_, ?_, rfl, rfl⟩
  · intro p hp
    have h := mem_hDelete_ne _ "Authorization" p hp
    simpa using h
  · unfold part003OutboundHeaders
    have hx : lowerName "X-Forwarded-For" = "x-forwarded-for" := by decide
    apply mem_hDelete_of_mem
    · apply mem_hSetOpt_of_mem
      · rw [← hx]
        exact mem_hSet_self inbound "X-Forwarded-For" "127.0.0.1"
      · decide
    · decide

/-- Witness for the amended C5 theorem at a concrete request. -/
theorem outboundHeaderHygiene_witness :
    lowerName ("cookie", "session=sid").1 ≠ "authorization"
    ∧ ("x-forwarded-for", "127.0.0.1") ∈ part003OutboundHeaders
        [("authorization", "Bearer secret"), ("cookie", "session=sid")] (some "example.com") :=
  ⟨(outboundHeaderHygiene [("authorization", "Bearer secret"), ("cookie", "session=sid")]
      (some "example.com")).1 ("cookie", "session=sid") (by decide),
   (outboundHeaderHygiene [("authorization", "Bearer secret"), ("cookie", "session=sid")]
      (some "example.com")).2.1⟩

/-- C6 counterexample: the `/opencode/:apiKey/*` handler builds its
target from `c.req.path` alone and never reads the query string, so the
inbound query `?x=1` is dropped from the outbound URL instead of being
preserved verbatim. -/
theorem queryStringDropped :
    proxyRoutesTarget "opencode" "4096" "/opencode/oc_k/ping" "?x=1"
        = "http://opencode:4096/ping"
    ∧ (("http://opencode:4096/ping" == "http://opencode:4096/ping?x=1") = false) := by
  decide

/-- C6 (amended): both handlers remove the consumed route prefix — the
`/opencode/:apiKey/*` handler drops the first three path segments
(empty root, mount segment, credential) and the `/api/opencode/*`
handler strips the literal `/api/opencode` — but only the
`/api/opencode/*` handler appends the inbound query string; the
`/opencode/:apiKey/*` handler drops it. -/
theorem targetUrlConstruction :
    (∀ (host port path query k : String) (rest : List String),
        jsSplit path = "" :: "opencode" :: k :: rest →
        proxyRoutesTarget host port path query
          = "http://" ++ host ++ ":" ++ port ++ "/" ++ jsJoin "/" rest)
    ∧ (∀ (host port suffix search : String),
        indexTarget host port ("/api/opencode" ++ suffix) search
          = "http://" ++ host ++ ":" ++ port ++ suffix ++ search) := by
  constructor
  · intro host port path query k rest hsplit
    cases rest with
    | nil => simp [proxyRoutesTarget, hsplit, jsJoin]
    | cons a as => simp [proxyRoutesTarget, hsplit]
  · intro host port suffix search
    unfold indexTarget
    rw [jsStartsWith_append "/api/opencode" suffix]
    simp only [if_true]
    rw [stringDrop_13_append suffix]

/-- Witness for the amended C6 theorem at concrete requests. -/
theorem targetUrlConstruction_witness :
    proxyRoutesTarget "opencode" "4096" "/opencode/oc_k/a/b" "?q=1"
        = "http://opencode:4096/" ++ jsJoin "/" ["a", "b"]
    ∧ indexTarget "opencode" "4096" ("/api/opencode" ++ "/ping") "?x=1"
        = "http://opencode:4096/ping?x=1" :=
  ⟨targetUrlConstruction.1 "opencode" "4096" "/opencode/oc_k/a/b" "?q=1" "oc_k" ["a", "b"]
      (by decide),
   targetUrlConstruction.2 "opencode" "4096" "/ping" "?x=1"⟩

/-- C7 counterexample: raw exception text reaches the caller — the 502
proxy-failure envelope of index.ts carries the raw error message under
`details`, and the `API key` branch of the error handler echoes the raw
message; neither function takes the environment, so nothing suppresses
this in production mode. -/
theorem rawErrorDetailInEnvelope :
    indexProxyCatch (some "connect ECONNREFUSED 10.0.0.5:4096")
        = (502, [("error", "Failed to proxy request"),
                 ("details", "connect ECONNREFUSED 10.0.0.5:4096")])
    ∧ errorHandler true "API key lookup threw at driver.c:42"
        = (401, [("error", "Authentication error"),
                 ("message", "API key lookup threw at driver.c:42")]) := by
  decide

/-- C7 (amended): every exception matching neither classified pattern
(`API key`, `Database`) is rendered as status 500 with the uniform
envelope `error: Internal server error` and no exception detail; the
leak shown in the counterexample is confined to the classified 401
branch and the 502 proxy-failure envelope, and applies in every mode
because the code has no production/development distinction. -/
theorem unclassifiedErrorsAreUniform500 (isError : Bool) (msg : String)
    (h1 : jsIncludes msg "API key" = false) (h2 : jsIncludes msg "Database" = false) :
    errorHandler isError msg = (500, [("error", "Internal server error")]) := by
  simp [errorHandler, h1, h2]

/-- Witness for the amended C7 theorem at a concrete unclassified
exception. -/
theorem unclassifiedErrorsAreUniform500_witness :
    errorHandler true "unexpected null dereference" = (500, [("error", "Internal server error")]) :=
  unclassifiedErrorsAreUniform500 true "unexpected null dereference" (by decide) (by decide)

/-- C8: a proxy path whose credential segment is empty (`//rest`) is
rejected before any forwarding: Hono's `:apiKey` parameter cannot match
an empty segment, so the request falls through to the app's 404 handler
with an empty effect trace (no Identity Store call, no backend call);
and `validateApiKey` itself rejects an empty or missing credential with
401 `Invalid API key format` without ever calling the store. -/
theorem emptyCredentialRejectedWithoutStore (host port : String) (backend : String → Nat)
    (path query : String) (rest : List String)
    (hsplit : jsSplit path = "" :: "opencode" :: "" :: rest)
    (store : String → StoreReply) :
    opencodeDispatch host port backend path query = notFoundOutcome
    ∧ validateApiKey (some "") store
        = (GateResult.reject 401 [("error", "Invalid API key format")], [])
    ∧ validateApiKey none store
        = (GateResult.reject 401 [("error", "Invalid API key format")], []) := by
  refine ⟨?_, rfl, rfl⟩
  unfold opencodeDispatch matchOpencodeRoute
  rw [hsplit]
  simp

/-- Witness for the C8 theorem at the path `/opencode//rest`. -/
theorem emptyCredentialRejectedWithoutStore_witness :
    opencodeDispatch "opencode" "4096" (fun _ => 200) "/opencode//rest" "" = notFoundOutcome :=
  (emptyCredentialRejectedWithoutStore "opencode" "4096" (fun _ => 200) "/opencode//rest" ""
    ["rest"] (by decide) (fun _ => StoreReply.nomatch)).1

/-- C9: the `GET /keys/list` handler responds 200 with an array whose
elements carry exactly the metadata fields `id`, `name`, `createdAt`,
`expiresAt`, `updatedAt` — in particular no `key` field, so the raw
secret value of a credential is never projected into the response. -/
theorem listKeysOnlyMetadata (ks : List ApiKeyRecord) :
    (listKeysHandler ks).1 = 200
    ∧ ∀ r ∈ (listKeysHandler ks).2,
        r.map Prod.fst = ["id", "name", "createdAt", "expiresAt", "updatedAt"] := by
  refine ⟨rfl, ?_⟩
  intro r hr
  simp only [listKeysHandler, sanitizeKeys, List.mem_map] at hr
  obtain ⟨k, _, rfl⟩ := hr
  rfl

/-- Witness for the C9 theorem at a concrete key list. -/
theorem listKeysOnlyMetadata_witness :
    ([("id", "k1"), ("name", "n"), ("createdAt", "c"), ("expiresAt", "e"),
        ("updatedAt", "u")] : List (String × String)).map Prod.fst
      = ["id", "name", "createdAt", "expiresAt", "updatedAt"] :=
  (listKeysOnlyMetadata [⟨"k1", "n", "c", "e", "u", "oc_rawsecret"⟩]).2
    [("id", "k1"), ("name", "n"), ("createdAt", "c"), ("expiresAt", "e"), ("updatedAt", "u")]
    (by decide)

/-- C10: `POST /keys/create` defaults — a body omitting `name` yields
name `API Key`, a body omitting `expiresIn` yields an expiry of
31536000 seconds (365 days), and the created credential's metadata
records the creating user's email and the ISO timestamp of creation. -/
theorem createKeyDefaults (body : CreateKeyBody) (userId userEmail nowIso : String) :
    (body.name = none → (buildCreateKeyRequest body userId userEmail nowIso).name = "API Key")
    ∧ (body.expiresIn = none →
        (buildCreateKeyRequest body userId userEmail nowIso).expiresIn = 31536000)
    ∧ (buildCreateKeyRequest body userId userEmail nowIso).metadata
        = { createdAt := nowIso, userEmail := userEmail }
    ∧ (buildCreateKeyRequest body userId userEmail nowIso).userId = userId := by
  refine ⟨?_, ?_, rfl, rfl⟩
  · intro h
    simp [buildCreateKeyRequest, jsOrString, h]
  · intro h
    simp [buildCreateKeyRequest, jsOrNat, h]

/-- Witness for the C10 theorem at a body omitting both fields. -/
theorem createKeyDefaults_witness :
    (buildCreateKeyRequest ⟨none, none⟩ "user-1" "dev@example.com"
        "2025-11-10T12:00:00.000Z").name = "API Key"
    ∧ (buildCreateKeyRequest ⟨none, none⟩ "user-1" "dev@example.com"
        "2025-11-10T12:00:00.000Z").expiresIn = 31536000 :=
  ⟨(createKeyDefaults ⟨none, none⟩ "user-1" "dev@example.com" "2025-11-10T12:00:00.000Z").1 rfl,
   (createKeyDefaults ⟨none, none⟩ "user-1" "dev@example.com" "2025-11-10T12:00:00.000Z").2.1 rfl⟩

end OpencodeProxy
